import Mathlib

/-!
Verification of the workspace-discovery module of the repository
(`getUserRules`, `getRepositories`, `getConnections`).

The filesystem is modelled as an oracle structure `FS` supplying the three
primitives the code uses (`existsSync`, `readdirSync`, `readFileSync`);
a thrown exception of `readdirSync` / `readFileSync` is modelled as an
`Except.error` value, which the embedded functions catch exactly where the
source wraps the call in try/catch.  Paths are lists of components; `pjoin`
models `path.join`, including its normalisation of the `..` segment that the
source relies on for the `dbt-index` sibling lookup.  The configuration value
`env.NAO_DEFAULT_PROJECT_PATH` is an `Option String`; the source guard
`if (!projectFolder)` is true for both `undefined` and the empty string, which
the embedding renders as the `none` match arm together with the `= ""` test.
-/

namespace Nao

/-- A path, as a list of components below an abstract filesystem ground. -/
abbrev Path := List String

/-- One step of `path.join`: append a component, normalising `..`, `.`
and empty segments the way Node does for the segments this code passes. -/
def joinOne (p : Path) (c : String) : Path :=
  if c = ".." then p.dropLast
  else if c = "." then p
  else if c = "" then p
  else p ++ [c]

/-- `pjoin p cs` models `path.join(p, ...cs)`. -/
def pjoin (p : Path) (cs : List String) : Path :=
  cs.foldl joinOne p

/-- A directory entry as returned by `readdirSync(..., { withFileTypes: true })`. -/
structure Dirent where
  name : String
  isDirectory : Bool
deriving Repr, DecidableEq

/-- The filesystem oracle: the three `fs` primitives the module calls.
`existsSync` never throws (it returns `false` on error, as in Node);
the other two may throw, modelled by `Except.error`. -/
structure FS where
  existsSync : Path → Bool
  readdirSync : Path → Except String (List Dirent)
  readFileSync : Path → Except String String

/-- The relevant slice of the process environment. -/
structure Env where
  NAO_DEFAULT_PROJECT_PATH : Option String

/-- Embedding of `getUserRules`. -/
def getUserRules (env : Env) (fs : FS) : Option String :=
  match env.NAO_DEFAULT_PROJECT_PATH with
  | none => none
  | some projectFolder =>
    if projectFolder = "" then none
    else
      let rulesPath := pjoin [projectFolder] ["RULES.md"]
      if !fs.existsSync rulesPath then none
      else
        match fs.readFileSync rulesPath with
        | .ok rulesContent => some rulesContent
        | .error _ => none

/-- The `Repository` record.  In the source both `dbtProjectPath` and
`indexed` are optional fields; `dbtProjectPath` is assigned `undefined`
when no manifest is found (rendered `none`), while the local `indexed`
is a plain boolean that is always pushed, rendered `some`. -/
structure Repository where
  name : String
  hasDbtProject : Bool
  dbtProjectPath : Option String
  indexed : Option Bool
deriving Repr, DecidableEq

/-- The body of the `getRepositories` loop for one directory entry. -/
def mkRepository (fs : FS) (reposPath : Path) (entry : Dirent) : Repository :=
  let rootDbtProject := pjoin reposPath [entry.name, "dbt_project.yml"]
  let subDbtProject := pjoin reposPath [entry.name, "dbt", "dbt_project.yml"]
  let found : Bool × Option String :=
    if fs.existsSync rootDbtProject then
      (true, some ("repos/" ++ entry.name))
    else if fs.existsSync subDbtProject then
      (true, some ("repos/" ++ entry.name ++ "/dbt"))
    else
      (false, none)
  let indexed : Bool :=
    if found.1 then
      fs.existsSync (pjoin reposPath ["..", "dbt-index", entry.name, "manifest.md"])
    else false
  { name := entry.name, hasDbtProject := found.1, dbtProjectPath := found.2,
    indexed := some indexed }

/-- Embedding of `getRepositories`. -/
def getRepositories (env : Env) (fs : FS) : Option (List Repository) :=
  match env.NAO_DEFAULT_PROJECT_PATH with
  | none => none
  | some projectFolder =>
    if projectFolder = "" then none
    else
      let reposPath := pjoin [projectFolder] ["repos"]
      if !fs.existsSync reposPath then none
      else
        match fs.readdirSync reposPath with
        | .error _ => none
        | .ok entries =>
          let repositories : List Repository :=
            entries.foldl
              (fun acc entry =>
                if entry.isDirectory then acc ++ [mkRepository fs reposPath entry]
                else acc)
              []
          if repositories.length > 0 then some repositories else none

/-- JS `String.prototype.startsWith`: `s.startsWith(pre)` holds iff the
first `pre.length` characters of `s` are exactly `pre`.  (Defined via
`String.take` so that it evaluates inside the kernel.) -/
def strStartsWith (s pre : String) : Bool :=
  s.take pre.length == pre

/-- The `Connection` record. -/
structure Connection where
  type : String
  database : String
deriving Repr, DecidableEq

/-- The inner `getConnections` loop over the entries of one `type=` directory. -/
def scanDbEntries (ty : String) (dbEntries : List Dirent) : List Connection :=
  dbEntries.foldl
    (fun acc dbEntry =>
      if dbEntry.isDirectory && strStartsWith dbEntry.name "database=" then
        let database := dbEntry.name.drop ("database=".length)
        if database = "" then acc else acc ++ [{ type := ty, database }]
      else acc)
    []

/-- The outer `getConnections` loop.  An `Except.error` of the inner
`readdirSync` call aborts the remaining iterations, exactly as a thrown
exception leaves the source loop. -/
def scanTypeEntries (fs : FS) (databasesPath : Path) :
    List Dirent → Except String (List Connection)
  | [] => .ok []
  | entry :: rest =>
    if entry.isDirectory && strStartsWith entry.name "type=" then
      let ty := entry.name.drop ("type=".length)
      if ty = "" then scanTypeEntries fs databasesPath rest
      else
        let typePath := pjoin databasesPath [entry.name]
        match fs.readdirSync typePath with
        | .error e => .error e
        | .ok dbEntries =>
          match scanTypeEntries fs databasesPath rest with
          | .error e => .error e
          | .ok restConns => .ok (scanDbEntries ty dbEntries ++ restConns)
    else scanTypeEntries fs databasesPath rest

/-- Embedding of `getConnections`. -/
def getConnections (env : Env) (fs : FS) : Option (List Connection) :=
  match env.NAO_DEFAULT_PROJECT_PATH with
  | none => none
  | some projectFolder =>
    if projectFolder = "" then none
    else
      let databasesPath := pjoin [projectFolder] ["databases"]
      if !fs.existsSync databasesPath then none
      else
        match fs.readdirSync databasesPath with
        | .error _ => none
        | .ok entries =>
          match scanTypeEntries fs databasesPath entries with
          | .error _ => none
          | .ok connections =>
            if connections.length > 0 then some connections else none

/-- Whether an `Except` value is a success. -/
def exceptOk {ε α : Type} : Except ε α → Bool
  | .ok _ => true
  | .error _ => false

/-- The directory listing an oracle reports at `p`, empty on error.
Used only to state theorems whose hypotheses rule the error case out. -/
def listingOf (fs : FS) (p : Path) : List Dirent :=
  match fs.readdirSync p with
  | .ok l => l
  | .error _ => []

/-- The connection contributed by one entry of a `type=` directory:
`some` exactly when the entry is a directory named `database=<D>` with
`D` non-empty. -/
def dbConnOf (ty : String) (d : Dirent) : Option Connection :=
  if d.isDirectory && strStartsWith d.name "database=" then
    if d.name.drop ("database=".length) = "" then none
    else some { type := ty, database := d.name.drop ("database=".length) }
  else none

/-- Modelled from the spec (section 4.3): the connection list described there —
one record per `databases/type=T/database=D` directory pair with non-empty
remainders `T` and `D`, in nested enumeration order, each type directory
emitting all of its databases consecutively, with no deduplication.
Stated independently of `scanTypeEntries` so the code can be compared
against it. -/
def connectionsSpec (fs : FS) (databasesPath : Path) (entries : List Dirent) :
    List Connection :=
  (entries.map fun e =>
    if e.isDirectory && strStartsWith e.name "type=" &&
        !(e.name.drop ("type=".length) == "") then
      (listingOf fs (pjoin databasesPath [e.name])).filterMap
        (dbConnOf (e.name.drop ("type=".length)))
    else []).flatten

/-! Concrete environments and filesystem oracles used by the
counterexample and the witnesses. -/

def c1Env : Env := ⟨some "root"⟩

def c1FS : FS where
  existsSync p := decide (p = ["root", "repos"])
  readdirSync p :=
    if p = ["root", "repos"] then .ok [⟨"plain", true⟩] else .error "ENOENT"
  readFileSync _ := .error "ENOENT"

def c1Record : Repository :=
  { name := "plain", hasDbtProject := false, dbtProjectPath := none,
    indexed := some false }

def c2Env : Env := ⟨some "root"⟩

def c2FS : FS where
  existsSync p := decide (p = ["root", "repos"])
  readdirSync p := if p = ["root", "repos"] then .ok [] else .error "ENOENT"
  readFileSync _ := .error "ENOENT"

def c3Env : Env := ⟨some "root"⟩

def c3FS : FS where
  existsSync p :=
    decide (p ∈ ([["root", "RULES.md"], ["root", "repos"], ["root", "databases"]] : List Path))
  readdirSync p :=
    if p = ["root", "databases"] then .ok [⟨"type=pg", true⟩] else .error "EIO"
  readFileSync _ := .error "EACCES"

def c4Env : Env := ⟨none⟩

def c4FS : FS where
  existsSync _ := true
  readdirSync _ := .ok [⟨"anything", true⟩]
  readFileSync _ := .ok "rules text"

def c5Env : Env := ⟨some "root"⟩

def c5FS : FS where
  existsSync p :=
    decide (p ∈ ([["root", "repos"],
      ["root", "repos", "both", "dbt_project.yml"],
      ["root", "repos", "both", "dbt", "dbt_project.yml"],
      ["root", "repos", "nested", "dbt", "dbt_project.yml"]] : List Path))
  readdirSync p :=
    if p = ["root", "repos"] then .ok [⟨"both", true⟩, ⟨"nested", true⟩]
    else .error "ENOENT"
  readFileSync _ := .error "ENOENT"

def c6ex : Path → Bool := fun p =>
  decide (p ∈ ([["root", "repos"],
    ["root", "repos", "foo", "dbt_project.yml"],
    ["root", "dbt-index", "foo", "manifest.md"]] : List Path))

def c6FS : FS where
  existsSync := c6ex
  readdirSync _ := .error "ENOENT"
  readFileSync _ := .error "ENOENT"

def c6FSb : FS where
  existsSync := c6ex
  readdirSync _ := .ok [⟨"different", false⟩]
  readFileSync _ := .ok "different file contents"

def c7Env : Env := ⟨some "root"⟩

def c7FS : FS where
  existsSync p := decide (p = ["root", "databases"])
  readdirSync p :=
    if p = ["root", "databases"] then
      .ok [⟨"type=pg", true⟩, ⟨"type=", true⟩, ⟨"misc", true⟩,
           ⟨"type=x", false⟩, ⟨"type=dw", true⟩]
    else if p = ["root", "databases", "type=pg"] then
      .ok [⟨"database=sales", true⟩, ⟨"database=", true⟩,
           ⟨"database=mkt", true⟩, ⟨"notes", false⟩]
    else if p = ["root", "databases", "type=dw"] then
      .ok [⟨"database=sales", true⟩]
    else .error "ENOENT"
  readFileSync _ := .error "ENOENT"

def c8Env : Env := ⟨some "root"⟩

def c8FS : FS where
  existsSync p := decide (p = ["root", "repos"])
  readdirSync p :=
    if p = ["root", "repos"] then
      .ok [⟨"alpha", true⟩, ⟨"readme.txt", false⟩, ⟨"beta", true⟩]
    else .error "ENOENT"
  readFileSync _ := .error "ENOENT"

def c9Env : Env := ⟨some "root"⟩

def c9FS : FS where
  existsSync p := decide (p = ["root", "RULES.md"])
  readdirSync _ := .error "ENOENT"
  readFileSync p := if p = ["root", "RULES.md"] then .ok "" else .error "ENOENT"

def c10Env : Env := ⟨some ""⟩

def c10FS : FS where
  existsSync _ := true
  readdirSync _ := .ok [⟨"anything", true⟩]
  readFileSync _ := .ok "rules text"

end Nao

namespace Nao

theorem pjoin_plain (pf c : String) (h1 : c ≠ "..") (h2 : c ≠ ".") (h3 : c ≠ "") :
    pjoin [pf] [c] = [pf, c] := by
  simp [pjoin, joinOne, h1, h2, h3]

theorem pjoin_repos (pf : String) : pjoin [pf] ["repos"] = [pf, "repos"] := by
  simp [pjoin, joinOne]

theorem pjoin_two (rp : Path) (a b : String)
    (ha1 : a ≠ "..") (ha2 : a ≠ ".") (ha3 : a ≠ "")
    (hb1 : b ≠ "..") (hb2 : b ≠ ".") (hb3 : b ≠ "") :
    pjoin rp [a, b] = rp ++ [a, b] := by
  simp [pjoin, joinOne, ha1, ha2, ha3, hb1, hb2, hb3]

theorem indexPath_eq (pf nm : String) (h1 : nm ≠ "..") (h2 : nm ≠ ".") (h3 : nm ≠ "") :
    pjoin [pf, "repos"] ["..", "dbt-index", nm, "manifest.md"]
      = [pf, "dbt-index", nm, "manifest.md"] := by
  simp [pjoin, joinOne, h1, h2, h3]

theorem ite_length_pos {α : Type} (l : List α) :
    (if l.length > 0 then some l else none) = (if l.isEmpty then none else some l) := by
  cases l <;> simp

theorem repoFold_eq (fs : FS) (rp : Path) (entries : List Dirent) (acc : List Repository) :
    entries.foldl
        (fun acc entry =>
          if entry.isDirectory then acc ++ [mkRepository fs rp entry] else acc) acc
      = acc ++ (entries.filter fun e => e.isDirectory).map (mkRepository fs rp) := by
  induction entries generalizing acc with
  | nil => simp
  | cons e es ih =>
    by_cases h : e.isDirectory <;> simp [List.filter_cons, h, ih]

theorem getRepositories_ok (env : Env) (fs : FS) (pf : String) (entries : List Dirent)
    (hpf : env.NAO_DEFAULT_PROJECT_PATH = some pf) (hpf0 : pf ≠ "")
    (hex : fs.existsSync [pf, "repos"] = true)
    (hrd : fs.readdirSync [pf, "repos"] = .ok entries) :
    getRepositories env fs =
      (let l := (entries.filter fun e => e.isDirectory).map (mkRepository fs [pf, "repos"])
       if l.isEmpty then none else some l) := by
  simp only [getRepositories, hpf]
  simp only [pjoin_repos, hex, hrd, Bool.not_true, Bool.false_eq_true, if_false,
    if_neg hpf0, repoFold_eq, List.nil_append, ite_length_pos]

theorem scanDbEntries_go (ty : String) (l : List Dirent) (acc : List Connection) :
    l.foldl
        (fun acc dbEntry =>
          if dbEntry.isDirectory && strStartsWith dbEntry.name "database=" then
            let database := dbEntry.name.drop ("database=".length)
            if database = "" then acc else acc ++ [{ type := ty, database }]
          else acc) acc
      = acc ++ l.filterMap (dbConnOf ty) := by
  induction l generalizing acc with
  | nil => simp
  | cons d ds ih =>
    simp only [List.foldl_cons]
    rw [ih]
    simp only [List.filterMap_cons, dbConnOf]
    by_cases h1 : (d.isDirectory && strStartsWith d.name "database=") = true
    · by_cases h2 : d.name.drop ("database=".length) = ""
      · simp [h1, h2]
      · simp [h1, h2]
    · simp [h1]

theorem scanDbEntries_eq (ty : String) (l : List Dirent) :
    scanDbEntries ty l = l.filterMap (dbConnOf ty) := by
  have h := scanDbEntries_go ty l []
  simpa [scanDbEntries] using h

theorem scanTypeEntries_ok (fs : FS) (dbp : Path) (entries : List Dirent)
    (hok : ∀ e ∈ entries,
      (e.isDirectory && strStartsWith e.name "type=" &&
        !(e.name.drop ("type=".length) == "")) = true →
      exceptOk (fs.readdirSync (pjoin dbp [e.name])) = true) :
    scanTypeEntries fs dbp entries = .ok (connectionsSpec fs dbp entries) := by
  induction entries with
  | nil => rfl
  | cons e es ih =>
    have ihs : scanTypeEntries fs dbp es = .ok (connectionsSpec fs dbp es) :=
      ih fun x hx => hok x (List.mem_cons_of_mem _ hx)
    unfold scanTypeEntries
    simp only [connectionsSpec, List.map_cons, List.flatten_cons]
    by_cases h1 : (e.isDirectory && strStartsWith e.name "type=") = true
    · by_cases h2 : e.name.drop ("type=".length) = ""
      · simp [h1, h2, ihs, connectionsSpec]
      · have hko := hok e (List.mem_cons_self _ _) (by simp [h1, h2])
        rcases hre : fs.readdirSync (pjoin dbp [e.name]) with err | dbl
        · rw [hre] at hko; simp [exceptOk] at hko
        · simp [h1, h2, hre, ihs, connectionsSpec, listingOf, scanDbEntries_eq]
    · simp [h1, ihs, connectionsSpec]

theorem pjoin_databases (pf : String) : pjoin [pf] ["databases"] = [pf, "databases"] := by
  simp [pjoin, joinOne]

theorem pjoin_rules (pf : String) : pjoin [pf] ["RULES.md"] = [pf, "RULES.md"] := by
  simp [pjoin, joinOne]

theorem getConnections_ok (env : Env) (fs : FS) (pf : String) (entries : List Dirent)
    (hpf : env.NAO_DEFAULT_PROJECT_PATH = some pf) (hpf0 : pf ≠ "")
    (hex : fs.existsSync [pf, "databases"] = true)
    (hrd : fs.readdirSync [pf, "databases"] = .ok entries)
    (hok : ∀ e ∈ entries,
      (e.isDirectory && strStartsWith e.name "type=" &&
        !(e.name.drop ("type=".length) == "")) = true →
      exceptOk (fs.readdirSync (pjoin [pf, "databases"] [e.name])) = true) :
    getConnections env fs =
      (let l := connectionsSpec fs [pf, "databases"] entries
       if l.isEmpty then none else some l) := by
  simp only [getConnections, hpf]
  simp only [pjoin_databases, hex, hrd, scanTypeEntries_ok fs [pf, "databases"] entries hok,
    Bool.not_true, Bool.false_eq_true, if_false, if_neg hpf0, ite_length_pos]

theorem mkRepository_name (fs : FS) (rp : Path) (e : Dirent) :
    (mkRepository fs rp e).name = e.name := rfl

theorem mkRepository_fields (fs : FS) (rp : Path) (e : Dirent) :
    (mkRepository fs rp e).hasDbtProject =
      (fs.existsSync (pjoin rp [e.name, "dbt_project.yml"]) ||
       fs.existsSync (pjoin rp [e.name, "dbt", "dbt_project.yml"])) ∧
    (mkRepository fs rp e).dbtProjectPath =
      (if fs.existsSync (pjoin rp [e.name, "dbt_project.yml"]) then
         some ("repos/" ++ e.name)
       else if fs.existsSync (pjoin rp [e.name, "dbt", "dbt_project.yml"]) then
         some ("repos/" ++ e.name ++ "/dbt")
       else none) ∧
    (mkRepository fs rp e).indexed =
      some (if (mkRepository fs rp e).hasDbtProject then
        fs.existsSync (pjoin rp ["..", "dbt-index", e.name, "manifest.md"]) else false) := by
  unfold mkRepository
  by_cases h1 : fs.existsSync (pjoin rp [e.name, "dbt_project.yml"]) = true
  · simp [h1]
  · by_cases h2 : fs.existsSync (pjoin rp [e.name, "dbt", "dbt_project.yml"]) = true
    · simp [h1, h2]
    · simp [h1, h2]

theorem mkRepository_existsOnly (fs fsb : FS) (rp : Path) (e : Dirent)
    (hagree : ∀ p, fs.existsSync p = fsb.existsSync p) :
    mkRepository fs rp e = mkRepository fsb rp e := by
  unfold mkRepository
  simp only [hagree]

theorem mkRepository_nonproject_indexed (fs : FS) (rp : Path) (e : Dirent)
    (h : (mkRepository fs rp e).hasDbtProject = false) :
    (mkRepository fs rp e).indexed = some false := by
  revert h
  unfold mkRepository
  by_cases h1 : fs.existsSync (pjoin rp [e.name, "dbt_project.yml"]) = true
  · simp [h1]
  · by_cases h2 : fs.existsSync (pjoin rp [e.name, "dbt", "dbt_project.yml"]) = true
    · simp [h1, h2]
    · simp [h1, h2]

theorem all_ite_length {a : Type} (l : List a) :
    ((if l.length > 0 then some l else none).all fun x => !x.isEmpty) = true := by
  cases l <;> simp

/-- Claim C4: if the project root configuration value is unset, all three
operations return null for every filesystem state (so the result does not
depend on the filesystem oracle at all). -/
theorem c4_unset_root (env : Env) (fs : FS)
    (h : env.NAO_DEFAULT_PROJECT_PATH = none) :
    getUserRules env fs = none ∧ getRepositories env fs = none ∧
    getConnections env fs = none := by
  simp [getUserRules, getRepositories, getConnections, h]

/-- Witness for C4 at a concrete unset environment and a live filesystem. -/
theorem c4_witness :
    getUserRules c4Env c4FS = none ∧ getRepositories c4Env c4FS = none ∧
    getConnections c4Env c4FS = none :=
  c4_unset_root c4Env c4FS rfl

/-- Claim C10: a configured root equal to the empty string behaves exactly
like an unset root — all three operations return null for every filesystem
state, because the precondition is a truthiness test. -/
theorem c10_empty_root (env : Env) (fs : FS)
    (h : env.NAO_DEFAULT_PROJECT_PATH = some "") :
    getUserRules env fs = none ∧ getRepositories env fs = none ∧
    getConnections env fs = none := by
  simp [getUserRules, getRepositories, getConnections, h]

/-- Witness for C10 at the concrete empty-string root. -/
theorem c10_witness :
    getUserRules c10Env c10FS = none ∧ getRepositories c10Env c10FS = none ∧
    getConnections c10Env c10FS = none :=
  c10_empty_root c10Env c10FS rfl

/-- Claim C2: for every configuration and filesystem state, each scanner
returns either null or a non-empty list (`Option.all` over the returned
value asserts non-emptiness whenever a list is present); moreover the
concrete filesystem `c2FS`, whose `repos/` directory exists but is empty,
yields null rather than an empty array. -/
theorem c2_null_or_nonempty (env : Env) (fs : FS) :
    ((getRepositories env fs).all fun l => !l.isEmpty) = true ∧
    ((getConnections env fs).all fun l => !l.isEmpty) = true ∧
    getRepositories c2Env c2FS = none := by
  refine ⟨?_, ?_, by decide⟩
  · rcases henv : env.NAO_DEFAULT_PROJECT_PATH with _ | pf
    · simp [getRepositories, henv]
    · by_cases hpf : pf = ""
      · simp [getRepositories, henv, hpf]
      · by_cases hex : fs.existsSync (pjoin [pf] ["repos"]) = true
        · rcases hrd : fs.readdirSync (pjoin [pf] ["repos"]) with err | entries
          · simp [getRepositories, henv, hpf, hex, hrd]
          · simp [getRepositories, henv, hpf, hex, hrd, all_ite_length]
        · simp [getRepositories, henv, hpf, hex]
  · rcases henv : env.NAO_DEFAULT_PROJECT_PATH with _ | pf
    · simp [getConnections, henv]
    · by_cases hpf : pf = ""
      · simp [getConnections, henv, hpf]
      · by_cases hex : fs.existsSync (pjoin [pf] ["databases"]) = true
        · rcases hrd : fs.readdirSync (pjoin [pf] ["databases"]) with err | entries
          · simp [getConnections, henv, hpf, hex, hrd]
          · rcases hsc : scanTypeEntries fs (pjoin [pf] ["databases"]) entries with err | conns
            · simp [getConnections, henv, hpf, hex, hrd, hsc]
            · simp [getConnections, henv, hpf, hex, hrd, hsc, all_ite_length]
        · simp [getConnections, henv, hpf, hex]

/-- Claim C3: no operation surfaces a filesystem failure.  The embedding
is total (a thrown exception is an `Except.error` of the oracle), and under
a configuration where the rules read fails, the repos enumeration fails,
and the databases scan fails midway (its top-level enumeration succeeds
but an inner `type=` listing throws), each operation returns null — never
a partial list. -/
theorem c3_null_on_error (env : Env) (fs : FS) (pf eF eR eD : String)
    (entries : List Dirent)
    (hpf : env.NAO_DEFAULT_PROJECT_PATH = some pf)
    (hrf : fs.readFileSync [pf, "RULES.md"] = .error eF)
    (hrr : fs.readdirSync [pf, "repos"] = .error eR)
    (hdb : fs.readdirSync [pf, "databases"] = .ok entries)
    (hsc : scanTypeEntries fs [pf, "databases"] entries = .error eD) :
    getUserRules env fs = none ∧ getRepositories env fs = none ∧
    getConnections env fs = none := by
  refine ⟨?_, ?_, ?_⟩
  · by_cases hpf0 : pf = ""
    · simp [getUserRules, hpf, hpf0]
    · by_cases hex : fs.existsSync [pf, "RULES.md"] = true
      · simp [getUserRules, hpf, hpf0, pjoin_rules, hex, hrf]
      · simp [getUserRules, hpf, hpf0, pjoin_rules, hex]
  · by_cases hpf0 : pf = ""
    · simp [getRepositories, hpf, hpf0]
    · by_cases hex : fs.existsSync [pf, "repos"] = true
      · simp [getRepositories, hpf, hpf0, pjoin_repos, hex, hrr]
      · simp [getRepositories, hpf, hpf0, pjoin_repos, hex]
  · by_cases hpf0 : pf = ""
    · simp [getConnections, hpf, hpf0]
    · by_cases hex : fs.existsSync [pf, "databases"] = true
      · simp [getConnections, hpf, hpf0, pjoin_databases, hex, hdb, hsc]
      · simp [getConnections, hpf, hpf0, pjoin_databases, hex]

/-- Witness for C3: a concrete oracle failing in all three ways at once. -/
theorem c3_witness :
    getUserRules c3Env c3FS = none ∧ getRepositories c3Env c3FS = none ∧
    getConnections c3Env c3FS = none :=
  c3_null_on_error c3Env c3FS "root" "EACCES" "EIO" "EIO" [⟨"type=pg", true⟩]
    rfl rfl rfl rfl rfl

theorem pjoin_normal (p : Path) (cs : List String)
    (h : ∀ c ∈ cs, c ≠ ".." ∧ c ≠ "." ∧ c ≠ "") : pjoin p cs = p ++ cs := by
  induction cs generalizing p with
  | nil => simp [pjoin]
  | cons c cs ih =>
    have hc := h c (List.mem_cons_self _ _)
    have h1 : joinOne p c = p ++ [c] := by simp [joinOne, hc.1, hc.2.1, hc.2.2]
    calc pjoin p (c :: cs) = pjoin (joinOne p c) cs := rfl
    _ = joinOne p c ++ cs := ih _ fun x hx => h x (List.mem_cons_of_mem _ hx)
    _ = p ++ c :: cs := by simp [h1]

/-- Claim C1 as stated is false: in `c1FS` the directory `plain` under
`repos/` has no manifest, yet the record returned for it carries a present
`indexed` field whose value is `false` — the source initialises the local
`indexed` to `false` and pushes it unconditionally, so `indexed` is never
absent. -/
theorem c1_counterexample :
    getRepositories c1Env c1FS = some [c1Record] ∧
    c1Record.hasDbtProject = false ∧ c1Record.indexed = some false := by
  refine ⟨by decide, by decide, by decide⟩

/-- Claim C1 (amended): for every directory entry under `repos/` with
`hasDbtProject = false`, the returned record has `indexed` present and equal
to `false` — the same value as an unindexed project — rather than absent. -/
theorem c1_nonproject_indexed_false (env : Env) (fs : FS) (l : List Repository)
    (r : Repository) (hl : getRepositories env fs = some l) (hr : r ∈ l)
    (hnp : r.hasDbtProject = false) :
    r.indexed = some false := by
  rcases henv : env.NAO_DEFAULT_PROJECT_PATH with _ | pf
  · simp [getRepositories, henv] at hl
  · by_cases hpf : pf = ""
    · simp [getRepositories, henv, hpf] at hl
    · by_cases hex : fs.existsSync (pjoin [pf] ["repos"]) = true
      · rcases hrd : fs.readdirSync (pjoin [pf] ["repos"]) with err | entries
        · simp [getRepositories, henv, hpf, hex, hrd] at hl
        · rw [pjoin_repos] at hex hrd
          rw [getRepositories_ok env fs pf entries henv hpf hex hrd] at hl
          by_cases hm :
              ((entries.filter fun e => e.isDirectory).map
                (mkRepository fs [pf, "repos"])).isEmpty = true
          · simp [hm] at hl
          · simp only [hm, Bool.false_eq_true, if_false] at hl
            have hl2 := Option.some.inj hl
            rw [← hl2] at hr
            rcases List.mem_map.mp hr with ⟨e, _, hre⟩
            rw [← hre] at hnp ⊢
            exact mkRepository_nonproject_indexed fs [pf, "repos"] e hnp
      · simp [getRepositories, henv, hpf, hex] at hl

/-- Witness for the amended C1 at the concrete non-project entry. -/
theorem c1_witness :
    c1Record.hasDbtProject = false ∧ c1Record.indexed = some false :=
  ⟨by decide,
    c1_nonproject_indexed_false c1Env c1FS [c1Record] c1Record (by decide)
      (by decide) (by decide)⟩

/-- Claim C5: for a directory entry of `repos/`, the produced record has
`hasDbtProject` true exactly when one of the two manifest locations exists,
`dbtProjectPath` is the directory containing the winning manifest — the
root-level `repos/D` taking priority over the nested `repos/D/dbt` — and
the record is a member of the scanner output. -/
theorem c5_manifest_locations (env : Env) (fs : FS) (pf : String)
    (entries : List Dirent) (entry : Dirent)
    (hpf : env.NAO_DEFAULT_PROJECT_PATH = some pf) (hpf0 : pf ≠ "")
    (hex : fs.existsSync [pf, "repos"] = true)
    (hrd : fs.readdirSync [pf, "repos"] = .ok entries)
    (hmem : entry ∈ entries) (hdir : entry.isDirectory = true)
    (hn1 : entry.name ≠ "..") (hn2 : entry.name ≠ ".") (hn3 : entry.name ≠ "") :
    mkRepository fs [pf, "repos"] entry ∈ (getRepositories env fs).getD [] ∧
    (mkRepository fs [pf, "repos"] entry).hasDbtProject =
      (fs.existsSync [pf, "repos", entry.name, "dbt_project.yml"] ||
       fs.existsSync [pf, "repos", entry.name, "dbt", "dbt_project.yml"]) ∧
    (mkRepository fs [pf, "repos"] entry).dbtProjectPath =
      (if fs.existsSync [pf, "repos", entry.name, "dbt_project.yml"] then
         some ("repos/" ++ entry.name)
       else if fs.existsSync [pf, "repos", entry.name, "dbt", "dbt_project.yml"] then
         some ("repos/" ++ entry.name ++ "/dbt")
       else none) := by
  have hroot : pjoin [pf, "repos"] [entry.name, "dbt_project.yml"]
      = [pf, "repos", entry.name, "dbt_project.yml"] := by
    apply pjoin_normal
    intro c hc
    simp only [List.mem_cons, List.not_mem_nil, or_false] at hc
    rcases hc with hc | hc
    · subst hc; exact ⟨hn1, hn2, hn3⟩
    · subst hc; refine ⟨by decide, by decide, by decide⟩
  have hsub : pjoin [pf, "repos"] [entry.name, "dbt", "dbt_project.yml"]
      = [pf, "repos", entry.name, "dbt", "dbt_project.yml"] := by
    apply pjoin_normal
    intro c hc
    simp only [List.mem_cons, List.not_mem_nil, or_false] at hc
    rcases hc with hc | hc | hc
    · subst hc; exact ⟨hn1, hn2, hn3⟩
    · subst hc; refine ⟨by decide, by decide, by decide⟩
    · subst hc; refine ⟨by decide, by decide, by decide⟩
  refine ⟨?_, ?_, ?_⟩
  · have hmm : mkRepository fs [pf, "repos"] entry ∈
        (entries.filter fun e => e.isDirectory).map (mkRepository fs [pf, "repos"]) :=
      List.mem_map_of_mem _ (List.mem_filter.mpr ⟨hmem, hdir⟩)
    rw [getRepositories_ok env fs pf entries hpf hpf0 hex hrd]
    have hne :
        ((entries.filter fun e => e.isDirectory).map
          (mkRepository fs [pf, "repos"])).isEmpty = false := by
      rcases hq : (entries.filter fun e => e.isDirectory).map
          (mkRepository fs [pf, "repos"]) with _ | _
      · rw [hq] at hmm; simp at hmm
      · simp [hq]
    simp only [hne, Bool.false_eq_true, if_false, Option.getD_some]
    exact hmm
  · have h := (mkRepository_fields fs [pf, "repos"] entry).1
    rw [hroot, hsub] at h
    exact h
  · have h := (mkRepository_fields fs [pf, "repos"] entry).2.1
    rw [hroot, hsub] at h
    exact h

/-- Witness for C5 at the concrete entry `both`, whose manifest exists at
both locations: the root-level path wins. -/
theorem c5_witness :
    mkRepository c5FS ["root", "repos"] ⟨"both", true⟩ ∈
      (getRepositories c5Env c5FS).getD [] ∧
    (mkRepository c5FS ["root", "repos"] ⟨"both", true⟩).hasDbtProject = true ∧
    (mkRepository c5FS ["root", "repos"] ⟨"both", true⟩).dbtProjectPath =
      some "repos/both" :=
  c5_manifest_locations c5Env c5FS "root" [⟨"both", true⟩, ⟨"nested", true⟩]
    ⟨"both", true⟩ rfl (by decide) (by decide) rfl (by decide) rfl
    (by decide) (by decide) (by decide)

/-- Claim C6: for a project entry the `indexed` flag is exactly the
existence of `<root>/dbt-index/<name>/manifest.md` — keyed by the entry
name directly under `dbt-index/` — the test is skipped (the flag is the
constant `false`) for non-projects, and the record depends only on the
`existsSync` component of the oracle, so no file contents are ever read. -/
theorem c6_index_artifact (fs fsb : FS) (pf : String) (entry : Dirent)
    (hagree : ∀ p, fs.existsSync p = fsb.existsSync p)
    (hn1 : entry.name ≠ "..") (hn2 : entry.name ≠ ".") (hn3 : entry.name ≠ "") :
    (mkRepository fs [pf, "repos"] entry).indexed =
      some (if (mkRepository fs [pf, "repos"] entry).hasDbtProject then
        fs.existsSync [pf, "dbt-index", entry.name, "manifest.md"] else false) ∧
    mkRepository fs [pf, "repos"] entry = mkRepository fsb [pf, "repos"] entry := by
  refine ⟨?_, mkRepository_existsOnly fs fsb _ _ hagree⟩
  have h := (mkRepository_fields fs [pf, "repos"] entry).2.2
  rw [indexPath_eq pf entry.name hn1 hn2 hn3] at h
  exact h

/-- Witness for C6: `foo` has a root manifest and an index artifact, and
two oracles agreeing on `existsSync` but differing elsewhere produce the
same record. -/
theorem c6_witness :
    (mkRepository c6FS ["root", "repos"] ⟨"foo", true⟩).indexed = some true ∧
    mkRepository c6FS ["root", "repos"] ⟨"foo", true⟩ =
      mkRepository c6FSb ["root", "repos"] ⟨"foo", true⟩ :=
  c6_index_artifact c6FS c6FSb "root" ⟨"foo", true⟩ (fun _ => rfl)
    (by decide) (by decide) (by decide)

/-- Claim C7: when the configured scan succeeds, the connection list is
exactly `connectionsSpec` — one record per `type=T/database=D` directory
pair with non-empty remainders, nested enumeration order, databases of one
type consecutive, no deduplication — collapsed to null when empty. -/
theorem c7_connection_enumeration (env : Env) (fs : FS) (pf : String)
    (entries : List Dirent)
    (hpf : env.NAO_DEFAULT_PROJECT_PATH = some pf) (hpf0 : pf ≠ "")
    (hex : fs.existsSync [pf, "databases"] = true)
    (hrd : fs.readdirSync [pf, "databases"] = .ok entries)
    (hok : ∀ e ∈ entries,
      (e.isDirectory && strStartsWith e.name "type=" &&
        !(e.name.drop ("type=".length) == "")) = true →
      exceptOk (fs.readdirSync (pjoin [pf, "databases"] [e.name])) = true) :
    getConnections env fs =
      (let l := connectionsSpec fs [pf, "databases"] entries
       if l.isEmpty then none else some l) :=
  getConnections_ok env fs pf entries hpf hpf0 hex hrd hok

/-- Witness for C7: `type=pg` holds `sales` and `mkt` plus an empty
`database=` and a plain file, a bare `type=` and a stray directory
contribute nothing, and `type=dw` repeats `sales` without deduplication. -/
theorem c7_witness :
    getConnections c7Env c7FS =
      some [⟨"pg", "sales"⟩, ⟨"pg", "mkt"⟩, ⟨"dw", "sales"⟩] :=
  c7_connection_enumeration c7Env c7FS "root"
    [⟨"type=pg", true⟩, ⟨"type=", true⟩, ⟨"misc", true⟩,
     ⟨"type=x", false⟩, ⟨"type=dw", true⟩]
    rfl (by decide) (by decide) rfl (by decide)

/-- Claim C8: with the root configured and `repos/` readable, the scanner
output is the directory entries, in enumeration order, each mapped to its
record (non-directories filtered out), collapsed to null when empty; every
record keeps the name of the entry it came from. -/
theorem c8_one_record_per_dir (env : Env) (fs : FS) (pf : String)
    (entries : List Dirent) (entry : Dirent)
    (hpf : env.NAO_DEFAULT_PROJECT_PATH = some pf) (hpf0 : pf ≠ "")
    (hex : fs.existsSync [pf, "repos"] = true)
    (hrd : fs.readdirSync [pf, "repos"] = .ok entries) :
    getRepositories env fs =
      (let l := (entries.filter fun e => e.isDirectory).map
        (mkRepository fs [pf, "repos"])
       if l.isEmpty then none else some l) ∧
    (mkRepository fs [pf, "repos"] entry).name = entry.name :=
  ⟨getRepositories_ok env fs pf entries hpf hpf0 hex hrd,
   mkRepository_name fs [pf, "repos"] entry⟩

/-- Witness for C8: two directories and one plain file under `repos/`
yield exactly the two directory records, in order. -/
theorem c8_witness :
    getRepositories c8Env c8FS =
      some [mkRepository c8FS ["root", "repos"] ⟨"alpha", true⟩,
            mkRepository c8FS ["root", "repos"] ⟨"beta", true⟩] ∧
    (mkRepository c8FS ["root", "repos"] ⟨"alpha", true⟩).name = "alpha" :=
  c8_one_record_per_dir c8Env c8FS "root"
    [⟨"alpha", true⟩, ⟨"readme.txt", false⟩, ⟨"beta", true⟩] ⟨"alpha", true⟩
    rfl (by decide) (by decide) rfl

/-- Claim C9: with a configured root, `getUserRules` returns exactly the
verbatim file content on a successful read (`Except.toOption` of the
oracle result), and null when the file is absent or the read throws; in
particular the concrete empty readable file yields the empty string. -/
theorem c9_rules_verbatim (env : Env) (fs : FS) (pf : String)
    (hpf : env.NAO_DEFAULT_PROJECT_PATH = some pf) (hpf0 : pf ≠ "") :
    getUserRules env fs =
      (if fs.existsSync [pf, "RULES.md"] then
        (fs.readFileSync [pf, "RULES.md"]).toOption
      else none) ∧
    getUserRules c9Env c9FS = some "" := by
  constructor
  · simp only [getUserRules, hpf, pjoin_rules, if_neg hpf0]
    by_cases hex : fs.existsSync [pf, "RULES.md"] = true
    · rcases hrf : fs.readFileSync [pf, "RULES.md"] with e | content <;>
        simp [hex, hrf, Except.toOption]
    · simp [hex]
  · decide

/-- Witness for C9 at the concrete empty `RULES.md`. -/
theorem c9_witness :
    getUserRules c9Env c9FS =
      (if c9FS.existsSync ["root", "RULES.md"] then
        (c9FS.readFileSync ["root", "RULES.md"]).toOption
      else none) ∧
    getUserRules c9Env c9FS = some "" :=
  c9_rules_verbatim c9Env c9FS "root" rfl (by decide)

end Nao
